import Mathlib

/-!
Verification of the PatternStack MCP adapter (TypeScript sources) against its
natural-language specification.

The development shallowly embeds the adapter:
* a JSON-like value type `JSValue` models the JavaScript runtime values the
  adapter manipulates; fallible operations (property access on `null`/
  `undefined`, calls to missing methods, iteration over non-iterables) are
  modelled in `Except String`, the error string standing for the thrown
  `Error`'s message;
* the static tool registry (`TOOL_CONFIG`, `HIDDEN_TOOLS`, `INPUT_SCHEMAS`),
  the result formatter (`formatResult`), the documentation resources
  (`getOverviewDoc`, `getToolsDoc`, `getConfigDoc`, `getResource`) and the
  dispatcher (`callTool` plus the protocol request handlers) are translated
  from the sources;
* the process environment is a record of the three environment variables the
  adapter reads; the upstream HTTP exchange is a `FetchOutcome` value fed to
  `callTool` (network abort / transport failure, or a status plus parsed or
  unparseable body).

Number rendering (`numToString`, `ratToFixed`) is a deterministic model of
JavaScript number-to-string conversion, exact on the integer and
finite-decimal values appearing in JSON payloads; thrown `TypeError` message
texts are modelled up to the exact wording of the JavaScript engine.
-/

/-- JavaScript runtime values as manipulated by the adapter: JSON values plus
`undefined`. Objects keep their fields as an ordered association list. -/
inductive JSValue where
  | undefined : JSValue
  | null : JSValue
  | bool : Bool → JSValue
  | num : Rat → JSValue
  | str : String → JSValue
  | arr : List JSValue → JSValue
  | obj : List (String × JSValue) → JSValue

/-- JavaScript truthiness of a value (`undefined`, `null`, `false`, `0` and
the empty string are falsy). -/
def jsTruthy : JSValue → Bool
  | .undefined => false
  | .null => false
  | .bool b => b
  | .num q => decide (q ≠ 0)
  | .str s => decide (s ≠ "")
  | .arr _ => true
  | .obj _ => true

/-- Truthiness of an environment variable (`undefined` or the empty string
are falsy). -/
def envTruthy : Option String → Bool
  | none => false
  | some s => decide (s ≠ "")

/-- `a || b` on an optional environment string: the string when truthy,
otherwise the default. -/
def envOrDefault (a : Option String) (b : String) : String :=
  match a with
  | some s => if s ≠ "" then s else b
  | none => b

/-- Plain property access `v.k`: throws a `TypeError` on `null` and
`undefined`, returns `undefined` for absent fields, and exposes `length` on
arrays and strings. -/
def getProp : JSValue → String → Except String JSValue
  | .null, k => .error ("Cannot read properties of null (reading " ++ k ++ ")")
  | .undefined, k => .error ("Cannot read properties of undefined (reading " ++ k ++ ")")
  | .obj fields, k => .ok ((fields.lookup k).getD .undefined)
  | .arr xs, k => .ok (if k = "length" then .num xs.length else .undefined)
  | .str s, k => .ok (if k = "length" then .num s.length else .undefined)
  | _, _ => .ok .undefined

/-- Optional-chained property access `v?.k`: `undefined` on `null` and
`undefined` instead of throwing. -/
def optMember : JSValue → String → JSValue
  | .null, _ => .undefined
  | .undefined, _ => .undefined
  | .obj fields, k => (fields.lookup k).getD .undefined
  | .arr xs, k => if k = "length" then .num xs.length else .undefined
  | .str s, k => if k = "length" then .num s.length else .undefined
  | _, _ => .undefined

/-- Powers of ten on rationals, used for decimal rendering. -/
def pow10 (k : Nat) : Rat := (10 : Rat) ^ k

/-- The smallest number of decimal digits that makes the rational an
integer, when one of at most 40 exists. -/
def decExp (q : Rat) : Option Nat :=
  (List.range 41).find? fun k => (q * pow10 k).den == 1

/-- Left-pad a digit string with zeros up to the given length. -/
def padZeros (s : String) (len : Nat) : String :=
  if s.length < len then String.mk (List.replicate (len - s.length) (Char.ofNat 48)) ++ s
  else s

/-- Render an integer together with `k` trailing decimal digits. -/
def renderScaled (n : Int) (k : Nat) : String :=
  let sign := if n < 0 then "-" else ""
  if k = 0 then sign ++ toString n.natAbs
  else
    let digits := padZeros (toString n.natAbs) (k + 1)
    sign ++ digits.take (digits.length - k) ++ "." ++ digits.drop (digits.length - k)

/-- Deterministic model of JavaScript number-to-string conversion: exact on
integers and finite decimals (the values produced by JSON payloads). -/
def numToString (q : Rat) : String :=
  if q.den == 1 then toString q.num
  else
    match decExp q with
    | some k => renderScaled (q * pow10 k).num k
    | none => toString q.num ++ "/" ++ toString q.den

/-- Model of `Number.prototype.toFixed`: round to `d` decimals, half away
from zero, and render with exactly `d` decimal digits. -/
def ratToFixed (d : Nat) (q : Rat) : String :=
  let scaled := q * pow10 d
  let r : Int := if scaled ≥ 0 then (scaled + 1/2).floor else -((-scaled + 1/2).floor)
  renderScaled r d

mutual

/-- Model of JavaScript `String(v)` conversion: arrays join their elements
with commas, objects render as `[object Object]`. -/
def jsToString : JSValue → String
  | .undefined => "undefined"
  | .null => "null"
  | .bool b => cond b "true" "false"
  | .num q => numToString q
  | .str s => s
  | .arr xs => jsArrToString xs
  | .obj _ => "[object Object]"

/-- Array-to-string conversion: elements joined with commas. -/
def jsArrToString : List JSValue → String
  | [] => ""
  | [x] => jsItemToString x
  | x :: y :: xs => jsItemToString x ++ "," ++ jsArrToString (y :: xs)

/-- Element conversion inside array joins: `null` and `undefined` render as
the empty string. -/
def jsItemToString : JSValue → String
  | .undefined => ""
  | .null => ""
  | .bool b => cond b "true" "false"
  | .num q => numToString q
  | .str s => s
  | .arr xs => jsArrToString xs
  | .obj _ => "[object Object]"

end

/-- Model of `Array.prototype.join(sep)` with a custom separator; throws a
`TypeError` when the receiver is not an array. -/
def jsJoin (v : JSValue) (sep : String) : Except String String :=
  match v with
  | .arr xs => .ok (String.intercalate sep (xs.map jsItemToString))
  | _ => .error "join is not a function"

/-- Escape one character for a JSON string literal. -/
def jsonEscapeChar (c : Char) : String :=
  if c = Char.ofNat 34 then "\\\""
  else if c = Char.ofNat 92 then "\\\\"
  else if c = Char.ofNat 10 then "\\n"
  else if c = Char.ofNat 13 then "\\r"
  else if c = Char.ofNat 9 then "\\t"
  else if c.toNat < 32 then
    let hexDigit (n : Nat) : Char := if n < 10 then Char.ofNat (48 + n) else Char.ofNat (87 + n)
    "\\u00" ++ String.mk [hexDigit (c.toNat / 16), hexDigit (c.toNat % 16)]
  else String.singleton c

/-- A JSON string literal for the given text. -/
def jsonQuote (s : String) : String :=
  "\"" ++ String.join (s.data.map jsonEscapeChar) ++ "\""

mutual

/-- Model of `JSON.stringify(v, null, 2)` at indentation level `ind`:
`none` models the `undefined` return for an unserialisable top level. -/
def jsonStringify (ind : String) : JSValue → Option String
  | .undefined => none
  | .null => some "null"
  | .bool b => some (cond b "true" "false")
  | .num q => some (numToString q)
  | .str s => some (jsonQuote s)
  | .arr xs =>
    let items := jsonStringifyArrItems ind xs
    some (if items.isEmpty then "[]"
          else "[\n" ++ String.intercalate ",\n" items ++ "\n" ++ ind ++ "]")
  | .obj fs =>
    let items := jsonStringifyObjItems ind fs
    some (if items.isEmpty then "\x7b\x7d"
          else "\x7b\n" ++ String.intercalate ",\n" items ++ "\n" ++ ind ++ "\x7d")

/-- Array elements, each on its own indented line; `undefined` elements
serialise as `null`. -/
def jsonStringifyArrItems (ind : String) : List JSValue → List String
  | [] => []
  | x :: xs =>
    (ind ++ "  " ++ ((jsonStringify (ind ++ "  ") x).getD "null")) ::
      jsonStringifyArrItems ind xs

/-- Object entries, each on its own indented line; entries whose value is
`undefined` are skipped. -/
def jsonStringifyObjItems (ind : String) : List (String × JSValue) → List String
  | [] => []
  | (k, v) :: fs =>
    match jsonStringify (ind ++ "  ") v with
    | none => jsonStringifyObjItems ind fs
    | some sv => (ind ++ "  " ++ jsonQuote k ++ ": " ++ sv) :: jsonStringifyObjItems ind fs

end

mutual

/-- Model of compact `JSON.stringify(v)` (no indentation argument). -/
def jsonStringifyCompact : JSValue → Option String
  | .undefined => none
  | .null => some "null"
  | .bool b => some (cond b "true" "false")
  | .num q => some (numToString q)
  | .str s => some (jsonQuote s)
  | .arr xs => some ("[" ++ String.intercalate "," (jsonStringifyCompactArr xs) ++ "]")
  | .obj fs => some ("\x7b" ++ String.intercalate "," (jsonStringifyCompactObj fs) ++ "\x7d")

/-- Compact serialisation of array elements; `undefined` becomes `null`. -/
def jsonStringifyCompactArr : List JSValue → List String
  | [] => []
  | x :: xs => ((jsonStringifyCompact x).getD "null") :: jsonStringifyCompactArr xs

/-- Compact serialisation of object entries; `undefined` values are
skipped. -/
def jsonStringifyCompactObj : List (String × JSValue) → List String
  | [] => []
  | (k, v) :: fs =>
    match jsonStringifyCompact v with
    | none => jsonStringifyCompactObj fs
    | some sv => (jsonQuote k ++ ":" ++ sv) :: jsonStringifyCompactObj fs

end

/-- Digit value of a character, when it is a decimal digit. -/
def charDigit (c : Char) : Option Nat :=
  if c.isDigit then some (c.toNat - 48) else none

/-- Parse a non-empty digit sequence as a natural number. -/
def natOfDigits (cs : List Char) : Option Nat :=
  match cs with
  | [] => none
  | _ => cs.foldlM (fun acc c => (charDigit c).map (fun d => acc * 10 + d)) 0

/-- Parse an unsigned decimal literal (digits, optionally a decimal point
and more digits). -/
def parseUnsignedDec (cs : List Char) : Option Rat :=
  let ip := cs.takeWhile Char.isDigit
  let rest := cs.dropWhile Char.isDigit
  match rest with
  | [] => (natOfDigits ip).map (fun n => (n : Rat))
  | c :: fp =>
    if c = Char.ofNat 46 ∧ fp.all Char.isDigit ∧ (ip ≠ [] ∨ fp ≠ []) then
      let ipart : Rat := ((natOfDigits ip).getD 0 : Nat)
      let fpart : Rat := (((natOfDigits fp).getD 0 : Nat) : Rat) / pow10 fp.length
      some (ipart + fpart)
    else none

/-- Model of JavaScript `ToNumber` coercion (`none` standing for `NaN`);
string parsing covers plain signed decimal literals, which is exact on the
values the formatter meets. -/
def toNumber : JSValue → Option Rat
  | .undefined => none
  | .null => some 0
  | .bool b => some (cond b 1 0)
  | .num q => some q
  | .str s =>
    let cs := s.data.dropWhile (fun c => c.isWhitespace)
    let cs := (cs.reverse.dropWhile (fun c => c.isWhitespace)).reverse
    match cs with
    | [] => some 0
    | c :: rest =>
      if c = Char.ofNat 45 then (parseUnsignedDec rest).map (fun q => -q)
      else if c = Char.ofNat 43 then parseUnsignedDec rest
      else parseUnsignedDec cs
  | .arr _ => none
  | .obj _ => none

/-- JavaScript `v > q` for a numeric literal on the right (`NaN` compares
false). -/
def jsGTnum (v : JSValue) (q : Rat) : Bool :=
  match toNumber v with
  | some x => decide (x > q)
  | none => false

/-- JavaScript `v < q` for a numeric literal on the right (`NaN` compares
false). -/
def jsLTnum (v : JSValue) (q : Rat) : Bool :=
  match toNumber v with
  | some x => decide (x < q)
  | none => false

/-- Strict equality `v === s` against a string literal. -/
def strictEqStr (v : JSValue) (s : String) : Bool :=
  match v with
  | .str t => decide (t = s)
  | _ => false

/-- Model of `Number.prototype.toFixed` reached through an arbitrary value:
a `TypeError` unless the receiver is a number. -/
def jsToFixed (v : JSValue) (d : Nat) : Except String String :=
  match v with
  | .num q => .ok (ratToFixed d q)
  | _ => .error "toFixed is not a function"

/-- Model of `String.prototype.toUpperCase` reached through an arbitrary
value: a `TypeError` unless the receiver is a string. -/
def jsToUpperCase (v : JSValue) : Except String String :=
  match v with
  | .str s => .ok s.toUpper
  | _ => .error "toUpperCase is not a function"

/-- Model of `for (const x of v)`: arrays yield their elements, strings
their characters; anything else throws a `TypeError`. -/
def jsIterate (v : JSValue) : Except String (List JSValue) :=
  match v with
  | .arr xs => .ok xs
  | .str s => .ok (s.data.map (fun c => .str (String.singleton c)))
  | _ => .error "is not iterable"

/-- Model of `Object.entries(v)`: object fields (array indices and string
positions keyed by their index); throws on `null` and `undefined`, and
yields nothing on other primitives. -/
def jsEntries (v : JSValue) : Except String (List (String × JSValue)) :=
  match v with
  | .null => .error "Cannot convert undefined or null to object"
  | .undefined => .error "Cannot convert undefined or null to object"
  | .obj fs => .ok fs
  | .arr xs => .ok (xs.enum.map (fun p => (toString p.1, p.2)))
  | .str s => .ok (s.data.enum.map (fun p => (toString p.1, JSValue.str (String.singleton p.2))))
  | _ => .ok []

/-- `typeof v === "object"` (true for `null`, arrays and objects). -/
def typeofIsObject : JSValue → Bool
  | .null => true
  | .arr _ => true
  | .obj _ => true
  | _ => false

/-- Whether the first character list starts with the second. -/
def charsStartWith : List Char → List Char → Bool
  | _, [] => true
  | [], _ :: _ => false
  | c :: cs, p :: ps => c == p && charsStartWith cs ps

/-- Whether the second character list occurs inside the first. -/
def charsContain : List Char → List Char → Bool
  | [], pat => pat.isEmpty
  | c :: rest, pat => charsStartWith (c :: rest) pat || charsContain rest pat

/-- Substring test, used to model `String.prototype.includes`. -/
def strContains (s pat : String) : Bool :=
  charsContain s.data pat.data

/-- One entry of the static tool registry (`config/tools.ts`). -/
structure ToolConfig where
  weight : Nat
  timeout : Nat
  minTier : String
  description : String
deriving DecidableEq

/-- The static tool registry `TOOL_CONFIG` from `config/tools.ts`, in source
order. -/
def TOOL_CONFIG : List (String × ToolConfig) := [
  ("dependency.explain",
    ⟨1, 15000, "free",
     "Get comprehensive explanation of a package including health, risk, and recommendations"⟩),
  ("dependency.health",
    ⟨1, 5000, "free",
     "Quick health check for a package (deprecated, vulnerable, unmaintained)"⟩),
  ("dependency.alternatives",
    ⟨1, 10000, "free",
     "Find alternative packages with adoption stats and migration effort"⟩),
  ("dependency.trends",
    ⟨1, 10000, "free",
     "Get trend data for a package (rising, stable, declining)"⟩),
  ("dependency.safe-upgrade",
    ⟨2, 15000, "free",
     "Evaluate if upgrading a package is safe with breaking change analysis"⟩),
  ("stack.recommend",
    ⟨2, 20000, "free",
     "Get stack recommendations based on use cases and requirements"⟩),
  ("stack.validate",
    ⟨1, 10000, "free",
     "Validate a stack for conflicts, redundancies, and issues"⟩),
  ("stack.defaults",
    ⟨1, 5000, "free",
     "Get canonical/default packages for a framework"⟩),
  ("migration.plan",
    ⟨3, 30000, "free",
     "Generate a detailed migration plan with action graph"⟩),
  ("architecture.evaluate",
    ⟨5, 45000, "free",
     "Comprehensive architecture evaluation with quality grades"⟩),
  ("signals.evaluate",
    ⟨1, 10000, "free",
     "Get reward signal for add/remove/upgrade/replace actions"⟩)]

/-- `HIDDEN_TOOLS` from `config/tools.ts`. -/
def HIDDEN_TOOLS : List String := ["migration.plan"]

/-- `ECOSYSTEM_ENUM` from `config/schemas.ts`. -/
def ECOSYSTEM_ENUM : List String :=
  ["npm", "pypi", "go", "crates", "rubygems", "packagist", "hex", "maven", "nuget", "pub", "swift"]

/-- Schema fragment `\x7b type: "string", description: d \x7d`. -/
def schemaStr (d : String) : JSValue :=
  .obj [("type", .str "string"), ("description", .str d)]

/-- Schema fragment `\x7b type: "string", enum: vs \x7d`. -/
def schemaStrEnum (vs : List String) : JSValue :=
  .obj [("type", .str "string"), ("enum", .arr (vs.map JSValue.str))]

/-- Schema fragment `\x7b type: "boolean", description: d \x7d`. -/
def schemaBool (d : String) : JSValue :=
  .obj [("type", .str "boolean"), ("description", .str d)]

/-- Schema fragment for an array of strings with a description. -/
def schemaArrStr (d : String) : JSValue :=
  .obj [("type", .str "array"), ("items", .obj [("type", .str "string")]),
        ("description", .str d)]

/-- Top-level schema object `\x7b type: "object", properties, required \x7d`. -/
def schemaObj (props : List (String × JSValue)) (req : List String) : JSValue :=
  .obj [("type", .str "object"), ("properties", .obj props),
        ("required", .arr (req.map JSValue.str))]

/-- `INPUT_SCHEMAS` from `config/schemas.ts`, keyed by tool name in source
order. -/
def INPUT_SCHEMAS : List (String × JSValue) := [
  ("dependency.explain", schemaObj [
    ("package", schemaStr "Package name to explain"),
    ("version", schemaStr "Version to analyze (optional)"),
    ("framework", schemaStr "Framework context (e.g., next, django)"),
    ("ecosystem", schemaStrEnum ECOSYSTEM_ENUM),
    ("includeAlternatives", schemaBool "Include alternative packages"),
    ("includeMigrations", schemaBool "Include migration information")]
    ["package"]),
  ("dependency.health", schemaObj [
    ("package", schemaStr "Package name to check"),
    ("ecosystem", schemaStrEnum ECOSYSTEM_ENUM)]
    ["package"]),
  ("dependency.alternatives", schemaObj [
    ("package", schemaStr "Package to find alternatives for"),
    ("framework", schemaStr "Framework context for ranking"),
    ("ecosystem", schemaStrEnum ECOSYSTEM_ENUM),
    ("limit", .obj [("type", .str "number"), ("description", .str "Max alternatives to return")])]
    ["package"]),
  ("dependency.trends", schemaObj [
    ("package", schemaStr "Package to get trends for"),
    ("framework", schemaStr "Framework context"),
    ("ecosystem", schemaStrEnum ECOSYSTEM_ENUM)]
    ["package"]),
  ("dependency.safe-upgrade", schemaObj [
    ("package", schemaStr "Package to upgrade"),
    ("currentVersion", schemaStr "Current version"),
    ("targetVersion", schemaStr "Target version (optional, defaults to latest)"),
    ("ecosystem", schemaStrEnum ECOSYSTEM_ENUM)]
    ["package", "currentVersion"]),
  ("stack.recommend", schemaObj [
    ("framework", schemaStr "Target framework (e.g., next, django)"),
    ("useCases", schemaArrStr
      "Use cases: realtime, ai, ecommerce, cms, saas, api, mobile, desktop, cli, data, devtools"),
    ("persistence", schemaStrEnum ["sql", "nosql", "graph", "kv", "none"]),
    ("auth", schemaStrEnum ["session", "jwt", "oauth", "magic-link", "none"]),
    ("projectClass", schemaStrEnum ["prototype", "startup", "growth", "enterprise"]),
    ("priorities", schemaArrStr "Priorities: speed, stability, performance, cost"),
    ("constraints", .obj [("type", .str "object"), ("properties", .obj [
      ("mustInclude", .obj [("type", .str "array"), ("items", .obj [("type", .str "string")])]),
      ("mustExclude", .obj [("type", .str "array"), ("items", .obj [("type", .str "string")])]),
      ("maxDependencies", .obj [("type", .str "number")])])])]
    ["useCases"]),
  ("stack.validate", schemaObj [
    ("packages", schemaArrStr "Packages to validate"),
    ("framework", schemaStr "Framework context"),
    ("ecosystem", schemaStrEnum ECOSYSTEM_ENUM)]
    ["packages"]),
  ("stack.defaults", schemaObj [
    ("framework", schemaStr "Framework to get defaults for"),
    ("strictMode", schemaBool "Only return required packages"),
    ("categories", schemaArrStr "Filter by categories")]
    ["framework"]),
  ("migration.plan", schemaObj [
    ("from", schemaStr "Source package (e.g., moment@2.29.0)"),
    ("to", schemaStr "Target package (e.g., date-fns@3.0.0)"),
    ("ecosystem", schemaStrEnum ECOSYSTEM_ENUM),
    ("projectContext", .obj [("type", .str "object"), ("properties", .obj [
      ("framework", .obj [("type", .str "string")]),
      ("packages", .obj [("type", .str "array"), ("items", .obj [("type", .str "string")])]),
      ("files", .obj [("type", .str "array"), ("items", .obj [("type", .str "string")])])])])]
    ["from", "to"]),
  ("architecture.evaluate", schemaObj [
    ("packages", schemaArrStr "Production dependencies"),
    ("devDependencies", schemaArrStr "Dev dependencies"),
    ("framework", schemaStr "Expected framework"),
    ("ecosystem", schemaStrEnum ECOSYSTEM_ENUM)]
    ["packages"]),
  ("signals.evaluate", schemaObj [
    ("action", .obj [("type", .str "string"),
      ("enum", .arr ((["add", "remove", "upgrade", "replace"] : List String).map JSValue.str)),
      ("description", .str "Action type")]),
    ("package", schemaStr "Package to evaluate"),
    ("targetPackage", schemaStr "Target package (for replace action)"),
    ("targetVersion", schemaStr "Target version (for upgrade action)"),
    ("currentStack", schemaArrStr "Current packages"),
    ("framework", schemaStr "Framework context"),
    ("ecosystem", schemaStrEnum ECOSYSTEM_ENUM)]
    ["action", "package", "currentStack"])]

/-- One bullet of the AGI guidance block: arrays join with `, `, non-null
objects serialise compactly, scalars interpolate directly
(`formatAgi` in `formatter.ts`). -/
def formatAgiLine (key : String) (value : JSValue) : String :=
  match value with
  | .arr xs => "- **" ++ key ++ "**: " ++ String.intercalate ", " (xs.map jsItemToString) ++ "\n"
  | .obj fs => "- **" ++ key ++ "**: " ++ ((jsonStringifyCompact (.obj fs)).getD "undefined") ++ "\n"
  | v => "- **" ++ key ++ "**: " ++ jsToString v ++ "\n"

/-- `formatAgi` from `formatter.ts`: header plus one line per entry of the
guidance object. -/
def formatAgi (agi : JSValue) : Except String String := do
  let entries ← jsEntries agi
  pure ("\n---\n## AGI Guidance\n" ++ String.join (entries.map (fun p => formatAgiLine p.1 p.2)))

/-- `formatResult` from `formatter.ts`: the per-tool switch producing the
display text, followed by the `_agi` guidance trailer. Thrown `TypeError`s
(field access on `null`/`undefined`, missing methods, iterating a
non-iterable) are the `Except.error` cases. -/
def formatResult (tool : String) (result : JSValue) : Except String String := do
  let data := result
  let text ←
    if tool = "dependency.explain" then do
      let pkg ← getProp data "package"
      let health ← getProp data "health"
      let risk ← getProp data "risk"
      let pkgName ← getProp pkg "name"
      let pkgVersion ← getProp pkg "version"
      let pkgEcosystem ← getProp pkg "ecosystem"
      let healthStatus ← getProp health "status"
      let healthSec ← getProp health "securityIssues"
      let healthMaint ← getProp health "maintenanceScore"
      let base :=
        "# " ++ jsToString pkgName ++ "@" ++ jsToString pkgVersion ++ "\n\n" ++
        "**Ecosystem**: " ++ jsToString pkgEcosystem ++ "\n" ++
        "**Status**: " ++ jsToString healthStatus ++ "\n" ++
        "**Security Issues**: " ++ jsToString healthSec ++ "\n" ++
        "**Maintenance Score**: " ++ jsToString healthMaint ++ "/100\n\n"
      let riskLevel ← getProp risk "level"
      if strictEqStr riskLevel "low" then pure base
      else do
        let lvl ← jsToUpperCase riskLevel
        let withRisk := base ++ "## Risk: " ++ lvl ++ "\n"
        let factors ← getProp risk "factors"
        let factorsLen ← getProp factors "length"
        let withFactors ←
          if jsGTnum factorsLen 0 then do
            let joined ← jsJoin factors ", "
            pure (withRisk ++ "**Factors**: " ++ joined ++ "\n")
          else pure withRisk
        let mitigations ← getProp risk "mitigations"
        let mitLen ← getProp mitigations "length"
        let withMit ←
          if jsGTnum mitLen 0 then do
            let joined ← jsJoin mitigations ", "
            pure (withFactors ++ "**Mitigations**: " ++ joined ++ "\n")
          else pure withFactors
        pure (withMit ++ "\n")
    else if tool = "dependency.health" then do
      let status ← getProp data "status"
      let agiSafe ← getProp data "_agi"
      let safe := optMember agiSafe "safe"
      let agiAction ← getProp data "_agi"
      let action := optMember agiAction "action"
      let base :=
        "# Health Check\n\n" ++
        "**Status**: " ++ jsToString status ++ "\n" ++
        "**Safe**: " ++ (if jsTruthy safe then "Yes" else "No") ++ "\n" ++
        "**Action**: " ++ jsToString action ++ "\n"
      let deprecated ← getProp data "deprecated"
      let base2 ←
        if jsTruthy deprecated then do
          let reason ← getProp data "deprecationReason"
          pure (base ++ "\n**Deprecated**: " ++
                (if jsTruthy reason then jsToString reason else "Yes") ++ "\n")
        else pure base
      let issues ← getProp data "securityIssues"
      if jsTruthy issues then do
        let len ← getProp issues "length"
        if jsGTnum len 0 then do
          let items ← jsIterate issues
          let lines ← items.mapM (fun issue => do
            let cve ← getProp issue "cve"
            let sev ← getProp issue "severity"
            let title ← getProp issue "title"
            pure ("- **" ++ jsToString cve ++ "** (" ++ jsToString sev ++ "): " ++
                  jsToString title ++ "\n"))
          pure (base2 ++ "\n## Security Issues\n" ++ String.join lines)
        else pure base2
      else pure base2
    else if tool = "stack.recommend" then do
      let stack ← getProp data "stack"
      let packages ← getProp data "packages"
      let framework ← getProp stack "framework"
      let desc ← getProp stack "description"
      let base :=
        "# Recommended Stack: " ++ jsToString framework ++ "\n\n" ++
        jsToString desc ++ "\n\n" ++ "## Packages\n\n"
      let pkgs ← jsIterate packages
      let lines ← pkgs.mapM (fun pkg => do
        let name ← getProp pkg "name"
        let category ← getProp pkg "category"
        let confidence ← getProp pkg "confidence"
        let reason ← getProp pkg "reason"
        let conf :=
          match toNumber confidence with
          | some q => ratToFixed 0 (q * 100)
          | none => "NaN"
        pure ("### " ++ jsToString name ++ "\n" ++
              "- **Category**: " ++ jsToString category ++ "\n" ++
              "- **Confidence**: " ++ conf ++ "%\n" ++
              "- **Reason**: " ++ jsToString reason ++ "\n\n"))
      let agi ← getProp data "_agi"
      let installCmd := optMember agi "installCommand"
      let base2 := base ++ String.join lines
      pure (if jsTruthy installCmd then
              base2 ++ "## Install\n```bash\n" ++ jsToString installCmd ++ "\n```\n"
            else base2)
    else if tool = "stack.validate" then do
      let valid ← getProp data "valid"
      let score ← getProp data "score"
      let issues ← getProp data "issues"
      let base :=
        "# Stack Validation\n\n" ++
        "**Valid**: " ++ (if jsTruthy valid then "Yes" else "No") ++ "\n" ++
        "**Score**: " ++ jsToString score ++ "/100\n\n"
      if jsTruthy issues then do
        let len ← getProp issues "length"
        if jsGTnum len 0 then do
          let items ← jsIterate issues
          let lines ← items.mapM (fun issue => do
            let sev ← getProp issue "severity"
            let icon := if strictEqStr sev "error" then "" else ""
            let ty ← getProp issue "type"
            let msg ← getProp issue "message"
            let pkgs ← getProp issue "packages"
            let joined ← jsJoin pkgs ", "
            pure (icon ++ " **" ++ jsToString ty ++ "** (" ++ jsToString sev ++ "): " ++
                  jsToString msg ++ "\n" ++ "  Packages: " ++ joined ++ "\n\n"))
          pure (base ++ "## Issues\n\n" ++ String.join lines)
        else pure base
      else pure base
    else if tool = "migration.plan" then do
      let migration ← getProp data "migration"
      let impact ← getProp data "impact"
      let steps ← getProp data "steps"
      let fromObj ← getProp migration "from"
      let fromPkg ← getProp fromObj "package"
      let toObj ← getProp migration "to"
      let toPkg ← getProp toObj "package"
      let difficulty ← getProp migration "difficulty"
      let summary ← getProp migration "summary"
      let estFiles ← getProp impact "estimatedFiles"
      let breaking ← getProp impact "breakingChanges"
      let base :=
        "# Migration Plan\n\n" ++
        "**From**: " ++ jsToString fromPkg ++ "\n" ++
        "**To**: " ++ jsToString toPkg ++ "\n" ++
        "**Difficulty**: " ++ jsToString difficulty ++ "\n\n" ++
        jsToString summary ++ "\n\n" ++
        "## Impact\n" ++
        "- **Estimated Files**: " ++ jsToString estFiles ++ "\n" ++
        "- **Breaking Changes**: " ++ jsToString breaking ++ "\n\n" ++
        "## Steps\n\n"
      let items ← jsIterate steps
      let lines ← items.mapM (fun step => do
        let automated ← getProp step "automated"
        let auto := if jsTruthy automated then "(automated)" else "(manual)"
        let order ← getProp step "order"
        let ty ← getProp step "type"
        let desc ← getProp step "description"
        pure (jsToString order ++ ". **" ++ jsToString ty ++ "** " ++ auto ++ ": " ++
              jsToString desc ++ "\n"))
      pure (base ++ String.join lines)
    else if tool = "architecture.evaluate" then do
      let quality ← getProp data "quality"
      let issues ← getProp data "issues"
      let grade ← getProp quality "grade"
      let overall ← getProp quality "overall"
      let summary ← getProp quality "summary"
      let base :=
        "# Architecture Evaluation\n\n" ++
        "**Grade**: " ++ jsToString grade ++ "\n" ++
        "**Score**: " ++ jsToString overall ++ "/100\n\n" ++
        jsToString summary ++ "\n\n" ++
        "## Dimensions\n"
      let dims ← getProp quality "dimensions"
      let entries ← jsEntries dims
      let base2 := base ++
        String.join (entries.map (fun p => "- **" ++ p.1 ++ "**: " ++ jsToString p.2 ++ "/100\n"))
      if jsTruthy issues then do
        let len ← getProp issues "length"
        if jsGTnum len 0 then do
          let items ← jsIterate issues
          let lines ← items.mapM (fun issue => do
            let name ← getProp issue "name"
            let sev ← getProp issue "severity"
            let desc ← getProp issue "description"
            pure ("- **" ++ jsToString name ++ "** (" ++ jsToString sev ++ "): " ++
                  jsToString desc ++ "\n"))
          pure (base2 ++ "\n## Issues\n" ++ String.join lines)
        else pure base2
      else pure base2
    else if tool = "signals.evaluate" then do
      let reward ← getProp data "reward"
      let recommendation ← getProp data "recommendation"
      let reasoning ← getProp data "reasoning"
      let icon :=
        if jsGTnum reward (3/10) then "" else if jsLTnum reward (-(3/10)) then "" else ""
      let fixed ← jsToFixed reward 2
      let base :=
        "# Signal Evaluation " ++ icon ++ "\n\n" ++
        "**Reward**: " ++ fixed ++ "\n" ++
        "**Recommendation**: " ++ jsToString recommendation ++ "\n\n"
      if jsTruthy reasoning then do
        let len ← getProp reasoning "length"
        if jsGTnum len 0 then do
          let items ← jsIterate reasoning
          pure (base ++ "## Reasoning\n" ++
                String.join (items.map (fun r => "- " ++ jsToString r ++ "\n")))
        else pure base
      else pure base
    else
      pure ("# " ++ tool ++ " Result\n\n```json\n" ++
            ((jsonStringify "" result).getD "undefined") ++ "\n```")
  let agi ← getProp data "_agi"
  if jsTruthy agi && typeofIsObject agi then do
    let g ← formatAgi agi
    pure (text ++ g)
  else pure text

/-- The process environment variables the adapter reads. -/
structure EnvState where
  PATTERNSTACK_API_KEY : Option String
  PATTERNSTACK_API_URL : Option String
  PATTERNSTACK_CLERK_USER_ID : Option String

/-- The module-level constants of `resources.ts`, captured from the process
environment when the module is loaded (`const API_KEY = process.env...`,
`const API_URL = process.env... || default`). -/
structure ResourcesModule where
  API_KEY : Option String
  API_URL : String

/-- Evaluation of the module-level initialisers of `resources.ts` against
the environment current at module-load time. -/
def loadResources (env : EnvState) : ResourcesModule :=
  ⟨env.PATTERNSTACK_API_KEY, envOrDefault env.PATTERNSTACK_API_URL "https://patternstack.ai"⟩

/-- `getOverviewDoc` from `resources.ts` (a constant document). -/
def getOverviewDoc : String :=
  "# 🪸 PatternStack MCP\n\n" ++
  "## Agent-Optimized Semantic Tool Layer\n\n" ++
  "PatternStack MCP provides semantic tools designed for AGI reasoning:\n\n" ++
  "### Tool Namespaces\n\n" ++
  "- **dependency.*** - Package-level intelligence\n" ++
  "- **stack.*** - Stack generation and validation\n" ++
  "- **migration.*** - Migration planning with action graphs\n" ++
  "- **architecture.*** - Architecture evaluation and grading\n" ++
  "- **signals.*** - Reinforcement learning signals\n\n" ++
  "### Key Features\n\n" ++
  "1. **AGI-Ready Responses** - Every tool returns an `_agi` block with:\n" ++
  "   - Confidence scores\n" ++
  "   - Clear recommendations (proceed/caution/avoid)\n" ++
  "   - Actionable next steps\n\n" ++
  "2. **Usage Limits** - Tools are gated by tier with rate limits and daily usage caps.\n\n" ++
  "3. **Safety Middleware** - Built-in protection:\n" ++
  "   - Tier gating\n" ++
  "   - Rate limiting\n" ++
  "   - Input validation\n" ++
  "   - Prompt injection detection\n\n" ++
  "### Tiers\n\n" ++
  "Free access is preview-only (summary + single risk). Full depth requires Workspace or Premium.\n\n" ++
  "| Tool | Free | Workspace | Premium |\n" ++
  "|------|------|-----------|---------|\n" ++
  "| dependency.health | Preview | Yes | Yes |\n" ++
  "| stack.defaults | - | Yes | Yes |\n" ++
  "| dependency.explain | Preview | Yes | Yes |\n" ++
  "| dependency.alternatives | - | Yes | Yes |\n" ++
  "| dependency.trends | Preview | Yes | Yes |\n" ++
  "| stack.recommend | - | Yes | Yes |\n" ++
  "| stack.validate | Preview | Yes | Yes |\n" ++
  "| migration.plan | - | - | Yes |\n" ++
  "| dependency.safe-upgrade | - | - | Yes |\n" ++
  "| architecture.evaluate | - | - | Yes |\n" ++
  "| signals.evaluate | - | - | Yes |\n\n" ++
  "Get your API key at: https://patternstack.ai/dashboard/keys\n"

/-- One registry section of the tool-reference document (`getToolsDoc` loop
body): the timeout renders as `timeout / 1000` seconds. -/
def toolsDocSection (name : String) (config : ToolConfig) : String :=
  "## " ++ name ++ "\n\n" ++
  config.description ++ "\n\n" ++
  "- **Complexity Weight**: " ++ numToString config.weight ++ "\n" ++
  "- **Timeout**: " ++ numToString ((config.timeout : Rat) / 1000) ++ "s\n" ++
  "- **Minimum Tier**: " ++ config.minTier ++ "\n\n" ++
  "---\n\n"

/-- `getToolsDoc` from `resources.ts`: iterates the registry in order. -/
def getToolsDoc : String :=
  "# MCP Tool Reference\n\n" ++
  String.join (TOOL_CONFIG.map (fun p => toolsDocSection p.1 p.2))

/-- `getConfigDoc` from `resources.ts`: renders from the module-level
`API_KEY` and `API_URL` constants (captured at module load). -/
def getConfigDoc (m : ResourcesModule) : String :=
  "# PatternStack Configuration\n\n" ++
  "API Key: " ++ (if envTruthy m.API_KEY then "Configured" else "Not set") ++ "\n" ++
  "API URL: " ++ m.API_URL ++ "\n\n" ++
  "## Setup\n\n" ++
  "1. Get API key from https://patternstack.ai/dashboard/keys\n" ++
  "2. Set PATTERNSTACK_API_KEY environment variable\n" ++
  "3. Start the MCP server\n\n" ++
  "## Environment Variables\n\n" ++
  "- PATTERNSTACK_API_KEY - Your API key (required)\n" ++
  "- PATTERNSTACK_API_URL - API URL (default: https://patternstack.ai)\n"

/-- Modelled from the spec: the configuration document as the spec describes
it — regenerated from the process environment **current at read time**
("read at call time, not cached at startup"). The template is the same as
`getConfigDoc`; only the environment it consults differs. -/
def getConfigDocSpecReadTime (readEnv : EnvState) : String :=
  "# PatternStack Configuration\n\n" ++
  "API Key: " ++ (if envTruthy readEnv.PATTERNSTACK_API_KEY then "Configured" else "Not set") ++ "\n" ++
  "API URL: " ++ envOrDefault readEnv.PATTERNSTACK_API_URL "https://patternstack.ai" ++ "\n\n" ++
  "## Setup\n\n" ++
  "1. Get API key from https://patternstack.ai/dashboard/keys\n" ++
  "2. Set PATTERNSTACK_API_KEY environment variable\n" ++
  "3. Start the MCP server\n\n" ++
  "## Environment Variables\n\n" ++
  "- PATTERNSTACK_API_KEY - Your API key (required)\n" ++
  "- PATTERNSTACK_API_URL - API URL (default: https://patternstack.ai)\n"

/-- One entry of the static resource catalog `RESOURCES`. -/
structure ResourceMeta where
  uri : String
  name : String
  description : String
  mimeType : String
deriving DecidableEq

/-- The static resource catalog `RESOURCES` from `resources.ts`. -/
def RESOURCES : List ResourceMeta := [
  ⟨"patternstack://overview", "MCP Overview",
   "PatternStack MCP architecture and tool reference", "text/markdown"⟩,
  ⟨"patternstack://tools", "Tool Reference",
   "Detailed reference for all MCP tools", "text/markdown"⟩,
  ⟨"patternstack://config", "Configuration",
   "Current configuration and API key status", "text/plain"⟩]

/-- `getResource` from `resources.ts`: switch over the URI, throwing on
unknown URIs. -/
def getResource (m : ResourcesModule) (uri : String) : Except String String :=
  if uri = "patternstack://overview" then .ok getOverviewDoc
  else if uri = "patternstack://tools" then .ok getToolsDoc
  else if uri = "patternstack://config" then .ok (getConfigDoc m)
  else .error ("Unknown resource: " ++ uri)

/-- One element of the `contents` array returned by the read-resource
handler. -/
structure ReadContent where
  uri : String
  mimeType : String
  text : String
deriving DecidableEq

/-- The `ReadResourceRequestSchema` handler from `server.ts`: reads via
`getResource` and wraps the text with the request URI and a hard-coded
`text/markdown` mime type; a `getResource` throw propagates. -/
def handleReadResource (m : ResourcesModule) (uri : String) : Except String (List ReadContent) := do
  let content ← getResource m uri
  pure [⟨uri, "text/markdown", content⟩]

/-- One entry of the tool listing returned by the `ListToolsRequestSchema`
handler. -/
structure ToolListEntry where
  name : String
  description : String
  inputSchema : JSValue

/-- The `ListToolsRequestSchema` handler from `server.ts`: all registry
entries except the hidden ones, with description and input schema. -/
def listTools : List ToolListEntry :=
  (TOOL_CONFIG.filter (fun p => ¬ HIDDEN_TOOLS.contains p.1)).map
    (fun p => ⟨p.1, p.2.description, (INPUT_SCHEMAS.lookup p.1).getD .undefined⟩)

/-- Outcome of one exchange with the upstream HTTP API, as observed by
`callTool`: a network-level failure (transport error or the timeout
controller aborting the request), or a response with a status code, a
status text and a body that either parses as JSON or fails to parse. -/
inductive FetchOutcome where
  | networkError : String → FetchOutcome
  | response : Nat → String → Except String JSValue → FetchOutcome

/-- The request headers `callTool` sends (`Content-Type`, bearer
authorization, and the optional `x-clerk-user-id` identity header). -/
def requestHeaders (apiKey : String) (clerkUserId : Option String) : List (String × String) :=
  [("Content-Type", "application/json"),
   ("Authorization", "Bearer " ++ apiKey)] ++
  (if envTruthy clerkUserId then [("x-clerk-user-id", clerkUserId.getD "")] else [])

/-- The guidance message `callTool` substitutes for an HTTP 400 mentioning
the identity header. -/
def clerkGuidanceMsg : String :=
  "Workspace-scoped API key requires PATTERNSTACK_CLERK_USER_ID. Re-copy your MCP config from the dashboard in workspace mode."

/-- The configuration error for a missing credential. -/
def apiKeyMissingMsg : String :=
  "PATTERNSTACK_API_KEY not set. Get your key at https://patternstack.ai/dashboard/keys"

/-- `callTool` from `server.ts`: credential check, the upstream exchange,
HTTP-level and payload-level error translation, and the unwrapped `result`
on success. `Except.error` models a thrown `Error` with that message. -/
def callTool (env : EnvState) (tool : String) (input : JSValue) (upstream : FetchOutcome) :
    Except String JSValue :=
  if ¬ envTruthy env.PATTERNSTACK_API_KEY then .error apiKeyMissingMsg
  else
    let _config := TOOL_CONFIG.lookup tool
    -- body: JSON.stringify({ tool, input })
    let _body := jsonStringifyCompact (.obj [("tool", .str tool), ("input", input)])
    match upstream with
    | .networkError msg => .error msg
    | .response status statusText body =>
      if ¬ (200 ≤ status ∧ status ≤ 299) then
        -- const error = await response.json().catch(() => ({error:{message: statusText}}))
        let errVal :=
          match body with
          | .ok v => v
          | .error _ => .obj [("error", .obj [("message", .str statusText)])]
        -- const message = error.error?.message  (a thrown TypeError propagates)
        match getProp errVal "error" with
        | .error m => .error m
        | .ok errField =>
          let message := optMember errField "message"
          if status = 400 ∧ strictEqStrContains message then .error clerkGuidanceMsg
          else .error (if jsTruthy message then jsToString message
                       else "API error: " ++ toString status)
      else
        match body with
        | .error parseMsg => .error parseMsg
        | .ok result =>
          match getProp result "success" with
          | .error m => .error m
          | .ok success =>
            if ¬ jsTruthy success then
              match getProp result "error" with
              | .error m => .error m
              | .ok errField =>
                let msg := optMember errField "message"
                .error (if jsTruthy msg then jsToString msg else "Tool execution failed")
            else
              match getProp result "result" with
              | .error m => .error m
              | .ok r => .ok r
where
  /-- `typeof message === "string" && message.includes("x-clerk-user-id")`. -/
  strictEqStrContains (message : JSValue) : Bool :=
    match message with
    | .str s => strContains s "x-clerk-user-id"
    | _ => false

/-- Outcome of the `CallToolRequestSchema` handler: either a thrown error
that escapes the handler (and reaches the protocol runtime as a raised
fault), or a normal protocol reply `\x7b content: [\x7b type: "text", text \x7d],
isError? \x7d`. -/
inductive CallToolOutcome where
  | thrown : String → CallToolOutcome
  | reply : String → Bool → CallToolOutcome
deriving DecidableEq

/-- The registered-tool path of the call-tool handler (the `try`/`catch`
block of `server.ts`): invoke `callTool` on `args || \x7b\x7d`, format the result,
and turn any thrown failure into a reply with `isError: true` and the text
`Error: <message>`. -/
def dispatchRegistered (env : EnvState) (name : String) (args : JSValue)
    (upstream : FetchOutcome) : CallToolOutcome :=
  match callTool env name (if jsTruthy args then args else .obj []) upstream with
  | .error msg => .reply ("Error: " ++ msg) true
  | .ok result =>
    match formatResult name result with
    | .error msg => .reply ("Error: " ++ msg) true
    | .ok text => .reply text false

/-- The `CallToolRequestSchema` handler from `server.ts`: names absent from
the registry throw `Unknown tool: <name>` **before** the `try`/`catch`;
registered names run `dispatchRegistered`. -/
def handleCallTool (env : EnvState) (name : String) (args : JSValue)
    (upstream : FetchOutcome) : CallToolOutcome :=
  if ¬ (TOOL_CONFIG.map Prod.fst).contains name then .thrown ("Unknown tool: " ++ name)
  else dispatchRegistered env name args upstream

/-- The tool names carrying a bespoke rendering template in `formatResult`
(the cases of its switch); every other name falls to the generic default
branch. -/
def bespokeTools : List String :=
  ["dependency.explain", "dependency.health", "stack.recommend", "stack.validate",
   "migration.plan", "architecture.evaluate", "signals.evaluate"]

/-- The guidance trailer `formatResult` appends when the result carries a
truthy object-typed `_agi` field (for a non-null, non-undefined result). -/
def agiTrailer (r : JSValue) : String :=
  let agi := optMember r "_agi"
  if jsTruthy agi && typeofIsObject agi then
    match jsEntries agi with
    | .ok es => "\n---\n## AGI Guidance\n" ++ String.join (es.map (fun p => formatAgiLine p.1 p.2))
    | .error _ => ""
  else ""

/-- Claim C1, counterexample: the unknown-tool failure is raised before the
handler's `try`/`catch` and escapes the call-tool handler as a thrown
fault (outcome `thrown`), not as a normal response with `isError: true` —
so it is false that no thrown failure (including the unknown-tool failure)
propagates past the dispatcher's call-tool handler. -/
theorem unknown_tool_error_escapes_handler :
    handleCallTool ⟨some "key", none, none⟩ "no.such.tool" (.obj [])
        (.networkError "upstream unreachable") =
      .thrown ("Unknown tool: " ++ "no.such.tool") := rfl

/-- Claim C1 (amended): for every registered tool name, the call-tool
handler never lets a thrown failure escape: every failure raised by
`callTool` (credential check, transport, HTTP or payload rejection) and
every failure raised by the formatter is caught and returned as a normal
reply whose text is `Error: <message>` and whose isError flag is true.
Only the unknown-tool failure, raised before the `try` block, escapes as a
thrown fault. -/
theorem registered_call_failures_caught (env : EnvState) (name : String) (args : JSValue)
    (upstream : FetchOutcome)
    (h : (TOOL_CONFIG.map Prod.fst).contains name = true) :
    (∀ m, handleCallTool env name args upstream ≠ .thrown m) ∧
    (∀ m, callTool env name (if jsTruthy args then args else .obj []) upstream = .error m →
       handleCallTool env name args upstream = .reply ("Error: " ++ m) true) ∧
    (∀ r m, callTool env name (if jsTruthy args then args else .obj []) upstream = .ok r →
       formatResult name r = .error m →
       handleCallTool env name args upstream = .reply ("Error: " ++ m) true) := by
  have hd : handleCallTool env name args upstream = dispatchRegistered env name args upstream := by
    simp only [handleCallTool, h]
    norm_num
  refine ⟨?_, ?_, ?_⟩
  · intro m
    rw [hd]
    cases hc : callTool env name (if jsTruthy args then args else .obj []) upstream with
    | error msg => simp [dispatchRegistered, hc]
    | ok r =>
      cases hf : formatResult name r with
      | error msg => simp [dispatchRegistered, hc, hf]
      | ok text => simp [dispatchRegistered, hc, hf]
  · intro m hc
    rw [hd]
    simp [dispatchRegistered, hc]
  · intro r m hc hf
    rw [hd]
    simp [dispatchRegistered, hc, hf]

/-- Claim C1, witness: a registered tool called without a credential yields
a normal `isError` reply carrying the configuration message. -/
theorem registered_call_failures_caught_witness :
    handleCallTool ⟨none, none, none⟩ "dependency.health" .undefined (.networkError "fetch failed") =
      .reply ("Error: " ++ apiKeyMissingMsg) true :=
  (registered_call_failures_caught ⟨none, none, none⟩ "dependency.health" .undefined
      (.networkError "fetch failed") (by decide)).2.1 apiKeyMissingMsg rfl

/-- Claim C2, counterexample: the config resource renders from the
environment captured at module load, not at read time — with no credential
at load time and one present at read time the document still says
`API Key: Not set`, and differs from the spec's read-time rendering. -/
theorem config_doc_ignores_read_time_env :
    envTruthy (some "ps_live_abc123") = true ∧
    strContains (getConfigDoc (loadResources ⟨none, none, none⟩)) "API Key: Not set" = true ∧
    getConfigDoc (loadResources ⟨none, none, none⟩) ≠
      getConfigDocSpecReadTime ⟨some "ps_live_abc123", none, none⟩ :=
  ⟨by decide, by decide, by decide⟩

/-- Claim C2 (amended): the config document is a function of the process
environment **captured when `resources.ts` was loaded** — it equals the
spec's template evaluated at the load-time environment, so environment
changes after module load are not reflected at read time. -/
theorem config_doc_reflects_load_env (loadEnv : EnvState) :
    getConfigDoc (loadResources loadEnv) = getConfigDocSpecReadTime loadEnv := rfl

/-- Claim C3: when the upstream responds 2xx with body
`\x7b success: true, result: R \x7d`, `callTool` returns exactly `R`,
unmodified. -/
theorem callTool_success_returns_result (env : EnvState) (tool : String) (input : JSValue)
    (status : Nat) (statusText : String) (fields : List (String × JSValue)) (R : JSValue)
    (hkey : envTruthy env.PATTERNSTACK_API_KEY = true)
    (hok : 200 ≤ status ∧ status ≤ 299)
    (hsucc : fields.lookup "success" = some (.bool true))
    (hres : fields.lookup "result" = some R) :
    callTool env tool input (.response status statusText (.ok (.obj fields))) = .ok R := by
  simp [callTool, hkey, hok, getProp, hsucc, hres, jsTruthy]

/-- Claim C3, witness: a concrete successful exchange returns the payload's
result object untouched. -/
theorem callTool_success_returns_result_witness :
    callTool ⟨some "key", none, none⟩ "dependency.health" (.obj [("package", .str "react")])
        (.response 200 "OK" (.ok (.obj
          [("success", .bool true), ("result", .obj [("status", .str "healthy")])]))) =
      .ok (.obj [("status", .str "healthy")]) :=
  callTool_success_returns_result ⟨some "key", none, none⟩ "dependency.health"
    (.obj [("package", .str "react")]) 200 "OK"
    [("success", .bool true), ("result", .obj [("status", .str "healthy")])]
    (.obj [("status", .str "healthy")]) (by decide) (by decide) rfl rfl

/-- Claim C4: a tool name absent from the registry fails with the message
`Unknown tool: <name>`, and the outcome is independent of the upstream
exchange — no HTTP request is issued. -/
theorem unknown_tool_fails_without_network (env : EnvState) (name : String) (args : JSValue)
    (h : (TOOL_CONFIG.map Prod.fst).contains name = false) :
    ∀ upstream upstream2 : FetchOutcome,
      handleCallTool env name args upstream = .thrown ("Unknown tool: " ++ name) ∧
      handleCallTool env name args upstream = handleCallTool env name args upstream2 := by
  intro u1 u2
  simp only [handleCallTool, h]
  norm_num

/-- Claim C4, witness: a concrete unregistered name fails with the
unknown-tool message under two different upstream behaviours. -/
theorem unknown_tool_fails_without_network_witness :
    handleCallTool ⟨some "key", none, none⟩ "scan_project" (.obj []) (.networkError "down") =
      .thrown ("Unknown tool: " ++ "scan_project") ∧
    handleCallTool ⟨some "key", none, none⟩ "scan_project" (.obj []) (.networkError "down") =
      handleCallTool ⟨some "key", none, none⟩ "scan_project" (.obj [])
        (.response 200 "OK" (.ok (.obj [("success", .bool true)]))) :=
  unknown_tool_fails_without_network ⟨some "key", none, none⟩ "scan_project" (.obj [])
    (by decide) (.networkError "down")
    (.response 200 "OK" (.ok (.obj [("success", .bool true)])))

/-- Claim C5, counterexample: a non-2xx message is not always propagated
verbatim — a 500 whose parsed `error.message` is the empty string fails
with the synthesized `API error: 500` instead of the (empty) parsed
message, and an unparseable 400 body whose status text mentions
`x-clerk-user-id` is rewritten into the guidance message instead of the
synthesized status text being propagated. -/
theorem nonverbatim_message_fallbacks :
    callTool ⟨some "key", none, none⟩ "dependency.health" (.obj [])
        (.response 500 "Internal Server Error"
          (.ok (.obj [("error", .obj [("message", .str "")])]))) =
      .error ("API error: " ++ "500") ∧
    ("API error: " ++ "500") ≠ "" ∧
    callTool ⟨some "key", none, none⟩ "dependency.health" (.obj [])
        (.response 400 "Missing x-clerk-user-id header" (.error "invalid json")) =
      .error clerkGuidanceMsg ∧
    clerkGuidanceMsg ≠ "Missing x-clerk-user-id header" :=
  ⟨rfl, by decide, rfl, by decide⟩

/-- Claim C5 (amended): an HTTP 400 whose message — parsed from the JSON
body, or synthesized from the status text when the body is unparseable —
contains `x-clerk-user-id` is rewritten into the fixed workspace-guidance
message; every other non-2xx propagates the parsed or synthesized message
verbatim when it is a non-empty string, and falls back to
`API error: <status>` when the message is empty or missing. -/
theorem http_error_message_translation (env : EnvState) (tool : String) (input : JSValue)
    (status : Nat) (statusText : String)
    (hkey : envTruthy env.PATTERNSTACK_API_KEY = true)
    (hnotok : ¬ (200 ≤ status ∧ status ≤ 299)) :
    (∀ fields efields msg,
       fields.lookup "error" = some (.obj efields) →
       efields.lookup "message" = some (.str msg) →
       status = 400 → strContains msg "x-clerk-user-id" = true →
       callTool env tool input (.response status statusText (.ok (.obj fields))) =
         .error clerkGuidanceMsg) ∧
    (∀ parseErr, status = 400 → strContains statusText "x-clerk-user-id" = true →
       callTool env tool input (.response status statusText (.error parseErr)) =
         .error clerkGuidanceMsg) ∧
    (∀ fields efields msg,
       fields.lookup "error" = some (.obj efields) →
       efields.lookup "message" = some (.str msg) → msg ≠ "" →
       ¬ (status = 400 ∧ strContains msg "x-clerk-user-id" = true) →
       callTool env tool input (.response status statusText (.ok (.obj fields))) = .error msg) ∧
    (∀ parseErr, statusText ≠ "" →
       ¬ (status = 400 ∧ strContains statusText "x-clerk-user-id" = true) →
       callTool env tool input (.response status statusText (.error parseErr)) =
         .error statusText) ∧
    (∀ fields efields, fields.lookup "error" = some (.obj efields) →
       (efields.lookup "message" = some (.str "") ∨ efields.lookup "message" = none) →
       callTool env tool input (.response status statusText (.ok (.obj fields))) =
         .error ("API error: " ++ toString status)) := by
  refine ⟨?_, ?_, ?_, ?_, ?_⟩
  · intro fields efields msg h1 h2 h3 h4
    simp [callTool, hkey, hnotok, getProp, h1, h2, h3, h4, optMember, callTool.strictEqStrContains]
  · intro parseErr h1 h2
    simp [callTool, hkey, hnotok, getProp, optMember, callTool.strictEqStrContains,
          jsTruthy, jsToString, h1, h2]
  · intro fields efields msg h1 h2 h3 h4
    simp [callTool, hkey, hnotok, getProp, h1, h2, optMember, callTool.strictEqStrContains,
          jsTruthy, jsToString, h3]
    intro ha hb
    exact absurd ⟨ha, hb⟩ h4
  · intro parseErr h1 h2
    simp [callTool, hkey, hnotok, getProp, optMember, callTool.strictEqStrContains,
          jsTruthy, jsToString, h1]
    intro ha hb
    exact absurd ⟨ha, hb⟩ h2
  · intro fields efields h1 h2
    rcases h2 with h2 | h2 <;>
      simp [callTool, hkey, hnotok, getProp, h1, h2, optMember, callTool.strictEqStrContains,
            jsTruthy, jsToString, show strContains "" "x-clerk-user-id" = false from rfl]

/-- Claim C5, witness: a concrete 400 response mentioning the identity
header is rewritten into the workspace-guidance message. -/
theorem http_error_message_translation_witness :
    callTool ⟨some "key", none, none⟩ "stack.recommend" (.obj [])
        (.response 400 "Bad Request" (.ok (.obj [("error", .obj
          [("message", .str "Workspace API key requires x-clerk-user-id header")])]))) =
      .error clerkGuidanceMsg :=
  (http_error_message_translation ⟨some "key", none, none⟩ "stack.recommend" (.obj [])
      400 "Bad Request" (by decide) (by decide)).1
    [("error", .obj [("message", .str "Workspace API key requires x-clerk-user-id header")])]
    [("message", .str "Workspace API key requires x-clerk-user-id header")]
    "Workspace API key requires x-clerk-user-id header" rfl rfl rfl (by decide)

/-- Claim C6: hidden tools never appear in the tool listing, yet a call to
a hidden tool dispatches exactly like any registered tool (through the
credential/upstream path, not the unknown-tool failure); every non-hidden
registry entry is listed with its description and input schema. -/
theorem hidden_tools_unlisted_but_callable :
    (∀ name, HIDDEN_TOOLS.contains name = true →
       (listTools.map ToolListEntry.name).contains name = false) ∧
    (∀ name, HIDDEN_TOOLS.contains name = true →
       ∀ (env : EnvState) (args : JSValue) (upstream : FetchOutcome),
         handleCallTool env name args upstream = dispatchRegistered env name args upstream) ∧
    (∀ name cfg, (name, cfg) ∈ TOOL_CONFIG → HIDDEN_TOOLS.contains name = false →
       listTools.find? (fun e => e.name == name) =
         some ⟨name, cfg.description, (INPUT_SCHEMAS.lookup name).getD .undefined⟩) := by
  refine ⟨?_, ?_, ?_⟩
  · intro name h
    have hn : name = "migration.plan" := by simpa [HIDDEN_TOOLS] using h
    subst hn
    rfl
  · intro name h env args upstream
    have hn : name = "migration.plan" := by simpa [HIDDEN_TOOLS] using h
    subst hn
    have hc : (TOOL_CONFIG.map Prod.fst).contains "migration.plan" = true := rfl
    simp only [handleCallTool, hc]
    norm_num
  · intro name cfg hmem hnh
    simp only [TOOL_CONFIG, List.mem_cons, List.not_mem_nil, or_false, Prod.mk.injEq] at hmem
    rcases hmem with ⟨h1, h2⟩ | ⟨h1, h2⟩ | ⟨h1, h2⟩ | ⟨h1, h2⟩ | ⟨h1, h2⟩ | ⟨h1, h2⟩ |
      ⟨h1, h2⟩ | ⟨h1, h2⟩ | ⟨h1, h2⟩ | ⟨h1, h2⟩ | ⟨h1, h2⟩ <;> subst h1 <;> subst h2 <;>
      first
        | rfl
        | exact absurd hnh (by decide)

/-- Claim C6, witness: `migration.plan` is absent from the listing yet
dispatches through the registered path; `dependency.health` is listed with
its description and schema. -/
theorem hidden_tools_unlisted_but_callable_witness :
    (listTools.map ToolListEntry.name).contains "migration.plan" = false ∧
    handleCallTool ⟨some "key", none, none⟩ "migration.plan" (.obj []) (.networkError "down") =
      dispatchRegistered ⟨some "key", none, none⟩ "migration.plan" (.obj [])
        (.networkError "down") ∧
    listTools.find? (fun e => e.name == "dependency.health") =
      some ⟨"dependency.health",
            "Quick health check for a package (deprecated, vulnerable, unmaintained)",
            (INPUT_SCHEMAS.lookup "dependency.health").getD .undefined⟩ :=
  ⟨hidden_tools_unlisted_but_callable.1 "migration.plan" (by decide),
   hidden_tools_unlisted_but_callable.2.1 "migration.plan" (by decide)
     ⟨some "key", none, none⟩ (.obj []) (.networkError "down"),
   hidden_tools_unlisted_but_callable.2.2 "dependency.health"
     ⟨1, 5000, "free", "Quick health check for a package (deprecated, vulnerable, unmaintained)"⟩
     (by decide) (by decide)⟩

/-- Claim C7, counterexample: for a tool without a bespoke template and a
`null` result, the formatter does **not** return the generic fallback — the
trailing `data._agi` guidance check throws a `TypeError`, so the claim's
"for every result value (including null ...) without throwing" fails. -/
theorem formatResult_null_result_throws :
    formatResult "stack.defaults" JSValue.null =
      .error "Cannot read properties of null (reading _agi)" := rfl

/-- Claim C7 (amended): the formatter is deterministic (identical inputs
render identical text), and for every tool name without a bespoke template
and every result **other than `null` and `undefined`** it returns the
generic pretty-printed fallback (plus the uniform guidance trailer when the
result has a truthy object `_agi` field) without throwing; a `null` or
`undefined` result makes the trailing guidance check throw. -/
theorem formatResult_fallback_deterministic (tool : String) (r : JSValue)
    (hb : bespokeTools.contains tool = false)
    (hnull : r ≠ .null) (hundef : r ≠ .undefined) :
    (∀ tool2 r2, tool2 = tool → r2 = r → formatResult tool2 r2 = formatResult tool r) ∧
    formatResult tool r =
      .ok ("# " ++ tool ++ " Result\n\n```json\n" ++
           ((jsonStringify "" r).getD "undefined") ++ "\n```" ++ agiTrailer r) := by
  refine ⟨fun tool2 r2 ht hr => by rw [ht, hr], ?_⟩
  simp [bespokeTools] at hb
  obtain ⟨h1, h2, h3, h4, h5, h6, h7⟩ := hb
  cases r with
  | null => exact absurd rfl hnull
  | undefined => exact absurd rfl hundef
  | bool b =>
    simp [formatResult, h1, h2, h3, h4, h5, h6, h7, getProp, jsTruthy, typeofIsObject,
          agiTrailer, optMember, bind, Except.bind, pure, Except.pure]
  | num q =>
    simp [formatResult, h1, h2, h3, h4, h5, h6, h7, getProp, jsTruthy, typeofIsObject,
          agiTrailer, optMember, bind, Except.bind, pure, Except.pure]
  | str s =>
    simp [formatResult, h1, h2, h3, h4, h5, h6, h7, getProp, jsTruthy, typeofIsObject,
          agiTrailer, optMember, bind, Except.bind, pure, Except.pure]
  | arr xs =>
    simp [formatResult, h1, h2, h3, h4, h5, h6, h7, getProp, jsTruthy, typeofIsObject,
          agiTrailer, optMember, bind, Except.bind, pure, Except.pure, formatAgi, jsEntries,
          Functor.map, Except.map]
  | obj fields =>
    rcases hv : (fields.lookup "_agi").getD .undefined with _ | _ | b | q | s | xs | fs <;>
      simp [formatResult, h1, h2, h3, h4, h5, h6, h7, getProp, jsTruthy, typeofIsObject,
            agiTrailer, optMember, bind, Except.bind, pure, Except.pure, formatAgi, jsEntries,
            Functor.map, Except.map, hv]

/-- Claim C7, witness: a concrete fallback tool and non-null result render
through the generic template. -/
theorem formatResult_fallback_deterministic_witness :
    formatResult "stack.defaults" (.obj [("framework", .str "next")]) =
      .ok ("# " ++ "stack.defaults" ++ " Result\n\n```json\n" ++
           ((jsonStringify "" (.obj [("framework", .str "next")])).getD "undefined") ++
           "\n```" ++ agiTrailer (.obj [("framework", .str "next")])) :=
  (formatResult_fallback_deterministic "stack.defaults" (.obj [("framework", .str "next")])
      (by decide) (by simp) (by simp)).2

/-- Claim C8, counterexample: the config document can contain the literal
credential value — setting the credential to the string `Configured` makes
the rendered text contain it, so "never contains the credential value" is
false as universally stated. -/
theorem config_doc_contains_credential_value :
    envTruthy (some "Configured") = true ∧
    strContains (getConfigDoc (loadResources ⟨some "Configured", none, none⟩))
      "Configured" = true :=
  ⟨by decide, by decide⟩

/-- Claim C8 (amended): the config document depends on the credential only
through whether it is set to a non-empty value: any two non-empty
credential values yield identical document text (so the text can contain a
credential value only when that value already occurs in the fixed
template, such as the word `Configured`). -/
theorem config_doc_credential_noninterference (k1 k2 : String) (url cid : Option String)
    (h1 : k1 ≠ "") (h2 : k2 ≠ "") :
    getConfigDoc (loadResources ⟨some k1, url, cid⟩) =
      getConfigDoc (loadResources ⟨some k2, url, cid⟩) := by
  simp [getConfigDoc, loadResources, envTruthy, h1, h2]

/-- Claim C8, witness: two distinct concrete credentials render the same
document. -/
theorem config_doc_credential_noninterference_witness :
    getConfigDoc (loadResources ⟨some "ps_key_A", none, none⟩) =
      getConfigDoc (loadResources ⟨some "ps_key_B", none, none⟩) :=
  config_doc_credential_noninterference "ps_key_A" "ps_key_B" none none
    (by decide) (by decide)

/-- Claim C9, counterexample: tool timeouts are not pairwise distinct —
`dependency.health` and `stack.defaults` both have a 5000 ms timeout. -/
theorem timeouts_not_distinct :
    (TOOL_CONFIG.lookup "dependency.health").map ToolConfig.timeout = some 5000 ∧
    (TOOL_CONFIG.lookup "stack.defaults").map ToolConfig.timeout = some 5000 ∧
    ("dependency.health" : String) ≠ "stack.defaults" :=
  ⟨rfl, rfl, by decide⟩

/-- Claim C9 (amended): every registry entry has a timeout between 5 and 45
seconds and a weight between 1 and 5; the timeouts are **not** all
distinct. -/
theorem tool_config_ranges :
    ∀ p ∈ TOOL_CONFIG, 5000 ≤ p.2.timeout ∧ p.2.timeout ≤ 45000 ∧
      1 ≤ p.2.weight ∧ p.2.weight ≤ 5 := by decide

/-- Claim C9, witness: the ranges hold at the `dependency.health` entry. -/
theorem tool_config_ranges_witness :
    5000 ≤ (5000 : Nat) ∧ (5000 : Nat) ≤ 45000 ∧ 1 ≤ (1 : Nat) ∧ (1 : Nat) ≤ 5 :=
  tool_config_ranges
    ("dependency.health",
     ⟨1, 5000, "free", "Quick health check for a package (deprecated, vulnerable, unmaintained)"⟩)
    (by decide)

/-- Claim C10: for every known resource URI the read handler returns a
single contents entry whose uri equals the requested URI and whose
mimeType is always `text/markdown` — even for the config resource, which
the resource listing declares as `text/plain`. -/
theorem read_resource_mimetype :
    (∀ (m : ResourcesModule),
       ∀ uri ∈ (["patternstack://overview", "patternstack://tools",
                 "patternstack://config"] : List String),
       ∃ text, handleReadResource m uri = .ok [⟨uri, "text/markdown", text⟩]) ∧
    RESOURCES.map (fun r => (r.uri, r.mimeType)) =
      [("patternstack://overview", "text/markdown"), ("patternstack://tools", "text/markdown"),
       ("patternstack://config", "text/plain")] := by
  refine ⟨?_, rfl⟩
  intro m uri h
  simp only [List.mem_cons, List.not_mem_nil, or_false] at h
  rcases h with h | h | h <;> subst h
  · exact ⟨getOverviewDoc, rfl⟩
  · exact ⟨getToolsDoc, rfl⟩
  · exact ⟨getConfigDoc m, rfl⟩

/-- Claim C10, witness: reading the config resource returns it under the
hard-coded `text/markdown` mime type. -/
theorem read_resource_mimetype_witness :
    ∃ text, handleReadResource (loadResources ⟨none, none, none⟩) "patternstack://config" =
      .ok [⟨"patternstack://config", "text/markdown", text⟩] :=
  read_resource_mimetype.1 (loadResources ⟨none, none, none⟩) "patternstack://config" (by decide)
